import Mathlib

/-!
Verification of `async_traits.rs` from `async-bb8-diesel`.

The file shallowly embeds the async facade over the synchronous Diesel
client.  A database connection is a value of an abstract state type `σ`;
synchronous Diesel operations (the transaction manager's begin, commit and
rollback, and the query operations) are abstract state transformers
`σ → Except D A × σ` returning a result together with the mutated
connection state.  The blocking relay (`tokio::task::spawn_blocking`
followed by `JoinHandle::unwrap`) is embedded as a pure function on the
outcome of the relayed closure, where a closure either returns a value or
panics.  The control flow of `run`, `transaction`, `transaction_async` and
of the query wrappers is translated statement by statement from the Rust
source; each blocking relay issued by `transaction_async` is additionally
recorded in an event trace, tagged with the identity of the underlying
connection the relay acts on, so that claims about which operations are
issued, in which order and against which connection, can be stated.
-/

namespace AsyncBb8Diesel

universe u v

/-- Outcome of executing a closure on the blocking pool: the closure either
returns a value or panics. -/
inductive ClosureOutcome (A : Type u) where
  | value (a : A)
  | panic
  deriving DecidableEq, Repr

/-- The error carried by a completed `tokio::task::JoinHandle` whose task
panicked. -/
structure JoinError where
  deriving DecidableEq, Repr

/-- Embedding of `tokio::task::spawn_blocking` followed by awaiting the
join handle: a panicking closure surfaces as a `JoinError`, a returning
closure surfaces its value. -/
def spawn_blocking {A : Type u} (o : ClosureOutcome A) : Except JoinError A :=
  match o with
  | .value a => .ok a
  | .panic => .error ⟨⟩

/-- Result of an async call that either completes with a value or is torn
down by a propagated panic. -/
inductive PanicOr (A : Type u) where
  | panicked
  | done (a : A)
  deriving DecidableEq, Repr

/-- Embedding of `Result::unwrap` on the join result: a `JoinError`
(i.e. a panic of the blocking task) is re-raised as a panic of the awaiting
call instead of being returned as a value. -/
def unwrapJoin {A : Type u} : Except JoinError A → PanicOr A
  | .ok a => .done a
  | .error _ => .panicked

/-- Embedding of `AsyncConnection::run_with_connection`: move the closure
`f` and the owned connection onto the blocking pool, await it, and unwrap
the join result (propagating panics).  The closure receives exclusive
access to the connection state. -/
def run_with_connection {σ : Type u} {A : Type v}
    (connection : σ) (f : σ → ClosureOutcome A) : PanicOr A :=
  unwrapJoin (spawn_blocking (f connection))

/-- Embedding of `AsyncConnection::run_with_shared_connection`: identical
relay to `run_with_connection`, except the connection is held through a
reference-counted handle; the closure still receives exclusive access to
the underlying connection state. -/
def run_with_shared_connection {σ : Type u} {A : Type v}
    (connection : σ) (f : σ → ClosureOutcome A) : PanicOr A :=
  unwrapJoin (spawn_blocking (f connection))

/-- One event per blocking-pool submission made by `run`. -/
inductive RunEvent where
  | spawned
  deriving DecidableEq, Repr

/-- Embedding of `AsyncConnection::run`: check out an owned connection
(converting a checkout error into the caller's error type `E`), then relay
the closure to the blocking pool via `run_with_connection`.  The result
pairs the call's outcome (including the connection state after the closure,
`none` when no connection was obtained) with the list of blocking-pool
submissions performed. -/
def run {σ CE E R : Type}
    (getConn : Except CE σ) (fromCE : CE → E)
    (f : σ → ClosureOutcome (Except E R × σ)) :
    PanicOr (Except E R × Option σ) × List RunEvent :=
  match getConn with
  | .error e => (.done (.error (fromCE e), none), [])
  | .ok s =>
    match run_with_connection s f with
    | .panicked => (.panicked, [.spawned])
    | .done (r, s') => (.done (r, some s'), [.spawned])

/-- The wrapped library's transaction manager: begin, commit and rollback
commands, each mutating the connection state and possibly failing with the
native Diesel error `D`. -/
structure TxMgr (σ D : Type) where
  begin_transaction : σ → Except D Unit × σ
  commit_transaction : σ → Except D Unit × σ
  rollback_transaction : σ → Except D Unit × σ

/-- Events recorded by `transaction_async`, each tagged with the identity
of the underlying connection the relay acts on: the checkout of the owned
connection, the begin, commit and rollback relays, and the execution of the
user-supplied asynchronous block. -/
inductive TxEvent where
  | checkout (id : Nat)
  | beginTx (id : Nat)
  | userBlock (id : Nat)
  | commitTx (id : Nat)
  | rollbackTx (id : Nat)
  deriving DecidableEq, Repr

/-- Identity of the connection an event refers to. -/
def TxEvent.connId : TxEvent → Nat
  | .checkout i => i
  | .beginTx i => i
  | .userBlock i => i
  | .commitTx i => i
  | .rollbackTx i => i

/-- Whether an event is the checkout of an owned connection. -/
def TxEvent.isCheckout : TxEvent → Bool
  | .checkout _ => true
  | _ => false

/-- Embedding of `AsyncConnection::transaction_async`.  An owned connection
is a pair of the identity of the underlying connection and its state.  The
function checks out one owned connection, issues `begin_transaction`
through a shared-connection relay (its native error mapped by
`ConnErr::from`, then by `E::from` at the `?`), runs the user-supplied
block `f` on a handle sharing the same underlying connection, and then
either commits (on success of `f`) or rolls back (on failure of `f`)
through further shared-connection relays against that same connection.  A
rollback failure replaces the user's error; a panic anywhere propagates.
The result carries the outcome, the final owned connection (when one was
checked out) and the trace of operations with the connection each acted
on. -/
def transaction_async {σ D CE E R : Type}
    (getConn : Except CE (Nat × σ)) (tm : TxMgr σ D)
    (fromD : D → CE) (fromCE : CE → E)
    (f : σ → ClosureOutcome (Except E R × σ)) :
    PanicOr (Except E R × Option (Nat × σ) × List TxEvent) :=
  match getConn with
  | .error e => .done (.error (fromCE e), none, [])
  | .ok (id, s0) =>
    match run_with_shared_connection s0 (fun conn =>
        let p := tm.begin_transaction conn
        .value (p.1.mapError fromD, p.2)) with
    | .panicked => .panicked
    | .done (.error ce, s1) =>
        .done (.error (fromCE ce), some (id, s1), [.checkout id, .beginTx id])
    | .done (.ok _, s1) =>
      match f s1 with
      | .panic => .panicked
      | .value (.ok value, s2) =>
        match run_with_shared_connection s2 (fun conn =>
            let p := tm.commit_transaction conn
            .value (p.1.mapError fromD, p.2)) with
        | .panicked => .panicked
        | .done (.error ce, s3) =>
            .done (.error (fromCE ce), some (id, s3),
              [.checkout id, .beginTx id, .userBlock id, .commitTx id])
        | .done (.ok _, s3) =>
            .done (.ok value, some (id, s3),
              [.checkout id, .beginTx id, .userBlock id, .commitTx id])
      | .value (.error user_error, s2) =>
        match run_with_shared_connection s2 (fun conn =>
            let p := tm.rollback_transaction conn
            .value (p.1.mapError fromD, p.2)) with
        | .panicked => .panicked
        | .done (.ok _, s3) =>
            .done (.error user_error, some (id, s3),
              [.checkout id, .beginTx id, .userBlock id, .rollbackTx id])
        | .done (.error ce, s3) =>
            .done (.error (fromCE ce), some (id, s3),
              [.checkout id, .beginTx id, .userBlock id, .rollbackTx id])

/-- Embedding of the synchronous-closure `AsyncConnection::transaction`:
`self.run(|conn| conn.transaction(|c| f(c)))`.  The wrapped library's own
`Connection::transaction` helper is external to this crate and is taken as
the abstract parameter `dieselTransaction`. -/
def transaction {σ CE E R : Type}
    (getConn : Except CE σ) (fromCE : CE → E)
    (dieselTransaction : (σ → Except E R × σ) → σ → Except E R × σ)
    (f : σ → Except E R × σ) :
    PanicOr (Except E R × Option σ) × List RunEvent :=
  run getConn fromCE (fun conn => .value (dieselTransaction (fun c => f c) conn))

/-- Embedding of `AsyncRunQueryDsl::execute_async`:
`asc.run(|conn| self.execute(conn).map_err(E::from))`.  The synchronous
`ExecuteDsl::execute` for the query at hand is the abstract parameter
`execute`.  The native error is converted straight into `E`. -/
def execute_async {σ CE D E : Type}
    (getConn : Except CE σ) (fromCE : CE → E) (fromDE : D → E)
    (execute : σ → Except D Nat × σ) :
    PanicOr (Except E Nat × Option σ) × List RunEvent :=
  run getConn fromCE (fun conn =>
    let p := execute conn
    .value (p.1.mapError fromDE, p.2))

/-- Embedding of `AsyncRunQueryDsl::load_async`:
`asc.run(|conn| self.load(conn).map_err(E::from))`, with the synchronous
`LoadQuery::load` abstract. -/
def load_async {σ CE D E U : Type}
    (getConn : Except CE σ) (fromCE : CE → E) (fromDE : D → E)
    (load : σ → Except D (List U) × σ) :
    PanicOr (Except E (List U) × Option σ) × List RunEvent :=
  run getConn fromCE (fun conn =>
    let p := load conn
    .value (p.1.mapError fromDE, p.2))

/-- Embedding of `AsyncRunQueryDsl::get_result_async`:
`asc.run(|conn| self.get_result(conn).map_err(E::from))`, with the
synchronous `get_result` abstract. -/
def get_result_async {σ CE D E U : Type}
    (getConn : Except CE σ) (fromCE : CE → E) (fromDE : D → E)
    (get_result : σ → Except D U × σ) :
    PanicOr (Except E U × Option σ) × List RunEvent :=
  run getConn fromCE (fun conn =>
    let p := get_result conn
    .value (p.1.mapError fromDE, p.2))

/-- Embedding of `AsyncRunQueryDsl::get_results_async`:
`asc.run(|conn| self.get_results(conn).map_err(E::from))`, with the
synchronous `get_results` abstract. -/
def get_results_async {σ CE D E U : Type}
    (getConn : Except CE σ) (fromCE : CE → E) (fromDE : D → E)
    (get_results : σ → Except D (List U) × σ) :
    PanicOr (Except E (List U) × Option σ) × List RunEvent :=
  run getConn fromCE (fun conn =>
    let p := get_results conn
    .value (p.1.mapError fromDE, p.2))

/-- Embedding of `AsyncRunQueryDsl::first_async`:
`asc.run(|conn| self.first(conn).map_err(E::from))`, with the synchronous
`RunQueryDsl::first` (limit plus fetch-one) abstract. -/
def first_async {σ CE D E U : Type}
    (getConn : Except CE σ) (fromCE : CE → E) (fromDE : D → E)
    (first : σ → Except D U × σ) :
    PanicOr (Except E U × Option σ) × List RunEvent :=
  run getConn fromCE (fun conn =>
    let p := first conn
    .value (p.1.mapError fromDE, p.2))

/-- Embedding of `AsyncSaveChangesDsl::save_changes_async`:
`asc.run(|conn| self.save_changes(conn).map_err(E::from))`, with the
synchronous `SaveChangesDsl::save_changes` abstract. -/
def save_changes_async {σ CE D E Output : Type}
    (getConn : Except CE σ) (fromCE : CE → E) (fromDE : D → E)
    (save_changes : σ → Except D Output × σ) :
    PanicOr (Except E Output × Option σ) × List RunEvent :=
  run getConn fromCE (fun conn =>
    let p := save_changes conn
    .value (p.1.mapError fromDE, p.2))

/-- Modelled from the spec: the outcome of invoking a synchronous operation
directly on a given connection state, with its native error converted into
the caller's error type — the reference an asynchronous counterpart must
match ("yields the same success/failure outcome (same value or equivalent
error) as invoking O directly on the same connection state"). -/
def syncOutcomeSpec {σ D E A : Type}
    (fromDE : D → E) (op : σ → Except D A × σ) (s : σ) :
    Except E A × σ :=
  ((op s).1.mapError fromDE, (op s).2)

/-- Relaying a closure that returns normally yields exactly the closure's
result on the connection state. -/
theorem run_with_shared_connection_eq_done {σ : Type u} {A : Type v}
    (s : σ) (f : σ → ClosureOutcome A) (a : A) (h : f s = .value a) :
    run_with_shared_connection s f = .done a := by
  simp [run_with_shared_connection, spawn_blocking, unwrapJoin, h]

/-- C5: if the begin-transaction relay fails with native error `d`, then
`transaction_async` returns `E::from (ConnErr::from d)`, and the
user-supplied block, the commit relay and the rollback relay are never
executed: the result is the same for every block `f`, and the trace ends at
the begin event, containing no user-block, commit or rollback event. -/
theorem transaction_async_begin_failure {σ D CE E R : Type}
    (getConn : Except CE (Nat × σ)) (tm : TxMgr σ D)
    (fromD : D → CE) (fromCE : CE → E)
    (id : Nat) (s0 s1 : σ) (d : D)
    (hconn : getConn = .ok (id, s0))
    (hbegin : tm.begin_transaction s0 = (.error d, s1)) :
    ∀ f : σ → ClosureOutcome (Except E R × σ),
      transaction_async getConn tm fromD fromCE f =
        .done (.error (fromCE (fromD d)), some (id, s1),
          [.checkout id, .beginTx id]) := by
  intro f
  simp [transaction_async, run_with_shared_connection, spawn_blocking,
    unwrapJoin, hconn, hbegin, Except.mapError]

/-- C6: if the user-supplied block succeeds with `v` but the commit relay
fails with native error `c`, then `transaction_async` returns the converted
commit error `E::from (ConnErr::from c)` — the value `v` is discarded — and
the trace contains a commit event but no rollback event. -/
theorem transaction_async_commit_failure {σ D CE E R : Type}
    (getConn : Except CE (Nat × σ)) (tm : TxMgr σ D)
    (fromD : D → CE) (fromCE : CE → E)
    (f : σ → ClosureOutcome (Except E R × σ))
    (id : Nat) (s0 s1 s2 s3 : σ) (v : R) (c : D)
    (hconn : getConn = .ok (id, s0))
    (hbegin : tm.begin_transaction s0 = (.ok (), s1))
    (hf : f s1 = .value (.ok v, s2))
    (hcommit : tm.commit_transaction s2 = (.error c, s3)) :
    transaction_async getConn tm fromD fromCE f =
      .done (.error (fromCE (fromD c)), some (id, s3),
        [.checkout id, .beginTx id, .userBlock id, .commitTx id]) := by
  simp [transaction_async, run_with_shared_connection, spawn_blocking,
    unwrapJoin, hconn, hbegin, hf, hcommit, Except.mapError]

/-- C1: when the user-supplied block fails with error `X` after a
successful begin, `transaction_async` relays a rollback; if the rollback
relay succeeds the call returns the failure `X` unchanged, and if the
rollback relay fails with native error `Y` the call returns `Y` converted
into the caller's error type (`E::from` of the `ConnErr` conversion) and
`X` is discarded. -/
theorem transaction_async_rollback_semantics {σ D CE E R : Type}
    (getConn : Except CE (Nat × σ)) (tm : TxMgr σ D)
    (fromD : D → CE) (fromCE : CE → E)
    (f : σ → ClosureOutcome (Except E R × σ))
    (id : Nat) (s0 s1 s2 : σ) (x : E)
    (hconn : getConn = .ok (id, s0))
    (hbegin : tm.begin_transaction s0 = (.ok (), s1))
    (hf : f s1 = .value (.error x, s2)) :
    (∀ s3, tm.rollback_transaction s2 = (.ok (), s3) →
      transaction_async getConn tm fromD fromCE f =
        .done (.error x, some (id, s3),
          [.checkout id, .beginTx id, .userBlock id, .rollbackTx id])) ∧
    (∀ y s3, tm.rollback_transaction s2 = (.error y, s3) →
      transaction_async getConn tm fromD fromCE f =
        .done (.error (fromCE (fromD y)), some (id, s3),
          [.checkout id, .beginTx id, .userBlock id, .rollbackTx id])) := by
  constructor
  · intro s3 hrb
    simp [transaction_async, run_with_shared_connection, spawn_blocking,
      unwrapJoin, hconn, hbegin, hf, hrb, Except.mapError]
  · intro y s3 hrb
    simp [transaction_async, run_with_shared_connection, spawn_blocking,
      unwrapJoin, hconn, hbegin, hf, hrb, Except.mapError]

/-- C2: when the user-supplied block succeeds with `v` after a successful
begin, `transaction_async` has issued begin before the block and, whatever
the commit relay's outcome, issues exactly one commit and no rollback after
the block — the trace is checkout, begin, user block, commit; when the
commit relay also succeeds the call returns `Ok v` and the final connection
state is the state reached by running begin, the block's effects and commit
in sequence on the checked-out connection. -/
theorem transaction_async_commit_semantics {σ D CE E R : Type}
    (getConn : Except CE (Nat × σ)) (tm : TxMgr σ D)
    (fromD : D → CE) (fromCE : CE → E)
    (f : σ → ClosureOutcome (Except E R × σ))
    (id : Nat) (s0 s1 s2 : σ) (v : R)
    (hconn : getConn = .ok (id, s0))
    (hbegin : tm.begin_transaction s0 = (.ok (), s1))
    (hf : f s1 = .value (.ok v, s2)) :
    (∀ rc s3, tm.commit_transaction s2 = (rc, s3) →
      ∃ r, transaction_async getConn tm fromD fromCE f =
        .done (r, some (id, s3),
          [.checkout id, .beginTx id, .userBlock id, .commitTx id])) ∧
    (∀ s3, tm.commit_transaction s2 = (.ok (), s3) →
      transaction_async getConn tm fromD fromCE f =
        .done (.ok v, some (id, s3),
          [.checkout id, .beginTx id, .userBlock id, .commitTx id])) := by
  constructor
  · intro rc s3 hcommit
    cases rc with
    | ok u =>
      refine ⟨.ok v, ?_⟩
      simp [transaction_async, run_with_shared_connection, spawn_blocking,
        unwrapJoin, hconn, hbegin, hf, hcommit, Except.mapError]
    | error c =>
      refine ⟨.error (fromCE (fromD c)), ?_⟩
      simp [transaction_async, run_with_shared_connection, spawn_blocking,
        unwrapJoin, hconn, hbegin, hf, hcommit, Except.mapError]
  · intro s3 hcommit
    simp [transaction_async, run_with_shared_connection, spawn_blocking,
      unwrapJoin, hconn, hbegin, hf, hcommit, Except.mapError]

/-- C8: every completed `transaction_async` call that checked out the owned
connection `id` has a trace that starts with exactly one checkout — of that
connection, before the begin relay — in which every begin, commit, rollback
and user-block event refers to that same underlying connection, and the
connection held at the end is that same connection. -/
theorem transaction_async_single_connection {σ D CE E R : Type}
    (getConn : Except CE (Nat × σ)) (tm : TxMgr σ D)
    (fromD : D → CE) (fromCE : CE → E)
    (f : σ → ClosureOutcome (Except E R × σ))
    (id : Nat) (s0 : σ) (r : Except E R)
    (st : Option (Nat × σ)) (tr : List TxEvent)
    (hconn : getConn = .ok (id, s0))
    (hdone : transaction_async getConn tm fromD fromCE f = .done (r, st, tr)) :
    tr.head? = some (.checkout id) ∧
    (tr.filter TxEvent.isCheckout).length = 1 ∧
    (∀ e ∈ tr, e.connId = id) ∧
    (∃ s', st = some (id, s')) := by
  rw [hconn] at hdone
  rcases hb : tm.begin_transaction s0 with ⟨rb, s1⟩
  cases rb with
  | error d =>
    simp [transaction_async, run_with_shared_connection, spawn_blocking,
      unwrapJoin, hb, Except.mapError] at hdone
    obtain ⟨hr, hst, htr⟩ := hdone
    subst hst htr
    refine ⟨rfl, rfl, ?_, ⟨s1, rfl⟩⟩
    intro e he
    fin_cases he <;> rfl
  | ok u =>
    cases hF : f s1 with
    | value p =>
      obtain ⟨v, s2⟩ := p
      cases v with
      | ok value =>
        rcases hc : tm.commit_transaction s2 with ⟨rc, s3⟩
        cases rc with
        | error c =>
          simp [transaction_async, run_with_shared_connection, spawn_blocking,
            unwrapJoin, hb, hF, hc, Except.mapError] at hdone
          obtain ⟨hr, hst, htr⟩ := hdone
          subst hst htr
          refine ⟨rfl, rfl, ?_, ⟨s3, rfl⟩⟩
          intro e he
          fin_cases he <;> rfl
        | ok u2 =>
          simp [transaction_async, run_with_shared_connection, spawn_blocking,
            unwrapJoin, hb, hF, hc, Except.mapError] at hdone
          obtain ⟨hr, hst, htr⟩ := hdone
          subst hst htr
          refine ⟨rfl, rfl, ?_, ⟨s3, rfl⟩⟩
          intro e he
          fin_cases he <;> rfl
      | error x =>
        rcases hrb : tm.rollback_transaction s2 with ⟨rr, s3⟩
        cases rr with
        | error y =>
          simp [transaction_async, run_with_shared_connection, spawn_blocking,
            unwrapJoin, hb, hF, hrb, Except.mapError] at hdone
          obtain ⟨hr, hst, htr⟩ := hdone
          subst hst htr
          refine ⟨rfl, rfl, ?_, ⟨s3, rfl⟩⟩
          intro e he
          fin_cases he <;> rfl
        | ok u2 =>
          simp [transaction_async, run_with_shared_connection, spawn_blocking,
            unwrapJoin, hb, hF, hrb, Except.mapError] at hdone
          obtain ⟨hr, hst, htr⟩ := hdone
          subst hst htr
          refine ⟨rfl, rfl, ?_, ⟨s3, rfl⟩⟩
          intro e he
          fin_cases he <;> rfl
    | panic =>
      simp [transaction_async, run_with_shared_connection, spawn_blocking,
        unwrapJoin, hb, hF, Except.mapError] at hdone

/-- C4: a closure that panics on the blocking pool makes the awaiting call
terminate abnormally: `run_with_connection` and
`run_with_shared_connection` re-raise the panic through `unwrap`, and `run`
built on them does the same, never resolving to any `Ok` or `Err` value of
the caller's result type. -/
theorem blocking_panic_propagates {σ CE E R : Type} {A : Type}
    (s s' : σ) (f : σ → ClosureOutcome A)
    (getConn : Except CE σ) (fromCE : CE → E)
    (g : σ → ClosureOutcome (Except E R × σ))
    (hf : f s = .panic) (hconn : getConn = .ok s') (hg : g s' = .panic) :
    run_with_connection s f = .panicked ∧
    run_with_shared_connection s f = .panicked ∧
    (∀ a : A, run_with_connection s f ≠ .done a) ∧
    (run getConn fromCE g).1 = .panicked ∧
    (∀ v : Except E R × Option σ, (run getConn fromCE g).1 ≠ .done v) := by
  refine ⟨?_, ?_, ?_, ?_, ?_⟩ <;>
    simp [run, run_with_connection, run_with_shared_connection,
      spawn_blocking, unwrapJoin, hf, hconn, hg]

/-- C7: the synchronous-closure `transaction` is exactly one blocking relay
of the wrapped library's own `Connection::transaction` helper applied to
`f`: on a checked-out connection state `s` its outcome (value or error, and
resulting connection state) equals that of the wrapped helper run with `f`
on `s`, and the trace shows a single blocking-pool submission. -/
theorem transaction_delegates_to_diesel {σ CE E R : Type}
    (getConn : Except CE σ) (fromCE : CE → E)
    (dieselTransaction : (σ → Except E R × σ) → σ → Except E R × σ)
    (f : σ → Except E R × σ) (s : σ)
    (hconn : getConn = .ok s) :
    transaction getConn fromCE dieselTransaction f =
      (.done ((dieselTransaction f s).1, some (dieselTransaction f s).2),
        [.spawned]) := by
  simp [transaction, run, run_with_connection, spawn_blocking, unwrapJoin,
    hconn]

/-- C9: if the connection checkout inside `run` fails with error `e`, then
`run` returns `Err (E::from e)` without invoking the blocking pool (the
trace is empty) and without executing the closure (the result is the same
for every closure `f`). -/
theorem run_checkout_failure {σ CE E R : Type}
    (getConn : Except CE σ) (fromCE : CE → E) (e : CE)
    (hconn : getConn = .error e) :
    ∀ f : σ → ClosureOutcome (Except E R × σ),
      run getConn fromCE f = (.done (.error (fromCE e), none), []) := by
  intro f
  simp [run, hconn]

/-- C3: on a checked-out connection state `s`, each asynchronous query
operation — `execute_async`, `load_async`, `get_result_async`,
`get_results_async`, `first_async` and `save_changes_async` — completes
with exactly the outcome of its synchronous counterpart on that same state:
the same success value and resulting state, or the `E`-converted image of
the same native error. -/
theorem async_query_ops_refine_sync {σ CE D E U Output : Type}
    (getConn : Except CE σ) (fromCE : CE → E) (fromDE : D → E)
    (execute : σ → Except D Nat × σ)
    (load : σ → Except D (List U) × σ)
    (get_result : σ → Except D U × σ)
    (get_results : σ → Except D (List U) × σ)
    (first : σ → Except D U × σ)
    (save_changes : σ → Except D Output × σ)
    (s : σ) (hconn : getConn = .ok s) :
    execute_async getConn fromCE fromDE execute =
      (.done ((syncOutcomeSpec fromDE execute s).1,
        some (syncOutcomeSpec fromDE execute s).2), [.spawned]) ∧
    load_async getConn fromCE fromDE load =
      (.done ((syncOutcomeSpec fromDE load s).1,
        some (syncOutcomeSpec fromDE load s).2), [.spawned]) ∧
    get_result_async getConn fromCE fromDE get_result =
      (.done ((syncOutcomeSpec fromDE get_result s).1,
        some (syncOutcomeSpec fromDE get_result s).2), [.spawned]) ∧
    get_results_async getConn fromCE fromDE get_results =
      (.done ((syncOutcomeSpec fromDE get_results s).1,
        some (syncOutcomeSpec fromDE get_results s).2), [.spawned]) ∧
    first_async getConn fromCE fromDE first =
      (.done ((syncOutcomeSpec fromDE first s).1,
        some (syncOutcomeSpec fromDE first s).2), [.spawned]) ∧
    save_changes_async getConn fromCE fromDE save_changes =
      (.done ((syncOutcomeSpec fromDE save_changes s).1,
        some (syncOutcomeSpec fromDE save_changes s).2), [.spawned]) := by
  refine ⟨?_, ?_, ?_, ?_, ?_, ?_⟩ <;>
    simp [execute_async, load_async, get_result_async, get_results_async,
      first_async, save_changes_async, run, run_with_connection,
      spawn_blocking, unwrapJoin, syncOutcomeSpec, hconn]

/-- Concrete transaction manager over `Nat` states whose three commands
all succeed, used to instantiate the theorems. -/
def txAllOk : TxMgr Nat Nat :=
  ⟨fun s => (.ok (), s + 1), fun s => (.ok (), s + 10),
   fun s => (.ok (), s + 100)⟩

/-- Concrete transaction manager whose begin command fails with native
error 9. -/
def txBeginFails : TxMgr Nat Nat :=
  ⟨fun s => (.error 9, s + 2), fun s => (.ok (), s + 10),
   fun s => (.ok (), s + 100)⟩

/-- Concrete transaction manager whose commit command fails with native
error 8. -/
def txCommitFails : TxMgr Nat Nat :=
  ⟨fun s => (.ok (), s + 1), fun s => (.error 8, s + 10),
   fun s => (.ok (), s + 100)⟩

/-- Concrete transaction manager whose rollback command fails with native
error 7. -/
def txRollbackFails : TxMgr Nat Nat :=
  ⟨fun s => (.ok (), s + 1), fun s => (.ok (), s + 10),
   fun s => (.error 7, s + 100)⟩

/-- Witness for C1 at concrete inputs: a failing block with a succeeding
rollback keeps the block's error 5; with a failing rollback the rollback's
converted error (7 + 100) * 3 replaces it. -/
theorem transaction_async_rollback_semantics_witness :
    transaction_async (.ok (3, 0)) txAllOk (fun d => d + 100)
        (fun ce => ce * 3) (fun s => .value ((.error 5 : Except Nat Nat), s + 4)) =
      .done (.error 5, some (3, 105),
        [.checkout 3, .beginTx 3, .userBlock 3, .rollbackTx 3]) ∧
    transaction_async (.ok (3, 0)) txRollbackFails (fun d => d + 100)
        (fun ce => ce * 3) (fun s => .value ((.error 5 : Except Nat Nat), s + 4)) =
      .done (.error ((7 + 100) * 3), some (3, 105),
        [.checkout 3, .beginTx 3, .userBlock 3, .rollbackTx 3]) :=
  ⟨(transaction_async_rollback_semantics (.ok (3, 0)) txAllOk
      (fun d => d + 100) (fun ce => ce * 3)
      (fun s => .value ((.error 5 : Except Nat Nat), s + 4)) 3 0 1 5 5 rfl rfl rfl).1 105 rfl,
   (transaction_async_rollback_semantics (.ok (3, 0)) txRollbackFails
      (fun d => d + 100) (fun ce => ce * 3)
      (fun s => .value ((.error 5 : Except Nat Nat), s + 4)) 3 0 1 5 5 rfl rfl rfl).2 7 105 rfl⟩

/-- Witness for C2 at concrete inputs: a succeeding block commits once with
no rollback and returns its value 42, the final state being that of begin,
block and commit run in sequence. -/
theorem transaction_async_commit_semantics_witness :
    transaction_async (.ok (3, 0)) txAllOk (fun d => d + 100)
        (fun ce => ce * 3) (fun s => .value (.ok 42, s + 4)) =
      .done (.ok 42, some (3, 15),
        [.checkout 3, .beginTx 3, .userBlock 3, .commitTx 3]) :=
  (transaction_async_commit_semantics (.ok (3, 0)) txAllOk
    (fun d => d + 100) (fun ce => ce * 3)
    (fun s => .value (.ok 42, s + 4)) 3 0 1 5 42 rfl rfl rfl).2 15 rfl

/-- Witness for C5 at concrete inputs: a failing begin yields the converted
error (9 + 100) * 3 and a trace that stops at the begin event, for an
arbitrary block. -/
theorem transaction_async_begin_failure_witness :
    transaction_async (.ok (3, 0)) txBeginFails (fun d => d + 100)
        (fun ce => ce * 3) (fun s => .value (.ok 42, s + 4)) =
      .done (.error ((9 + 100) * 3), some (3, 2),
        [.checkout 3, .beginTx 3]) :=
  transaction_async_begin_failure (.ok (3, 0)) txBeginFails
    (fun d => d + 100) (fun ce => ce * 3) 3 0 2 9 rfl rfl
    (fun s => .value (.ok 42, s + 4))

/-- Witness for C6 at concrete inputs: a succeeding block followed by a
failing commit yields the converted commit error (8 + 100) * 3, discarding
the value 42, with no rollback event. -/
theorem transaction_async_commit_failure_witness :
    transaction_async (.ok (3, 0)) txCommitFails (fun d => d + 100)
        (fun ce => ce * 3) (fun s => .value (.ok 42, s + 4)) =
      .done (.error ((8 + 100) * 3), some (3, 15),
        [.checkout 3, .beginTx 3, .userBlock 3, .commitTx 3]) :=
  transaction_async_commit_failure (.ok (3, 0)) txCommitFails
    (fun d => d + 100) (fun ce => ce * 3)
    (fun s => .value (.ok 42, s + 4)) 3 0 1 5 15 42 8 rfl rfl rfl rfl

/-- Witness for C8 at concrete inputs: the completed call's trace starts
with the single checkout of connection 3, every event refers to connection
3, and the final handle holds connection 3. -/
theorem transaction_async_single_connection_witness :
    ([TxEvent.checkout 3, .beginTx 3, .userBlock 3,
        .commitTx 3].head? = some (.checkout 3)) ∧
    (([TxEvent.checkout 3, .beginTx 3, .userBlock 3,
        .commitTx 3].filter TxEvent.isCheckout).length = 1) ∧
    (∀ e ∈ [TxEvent.checkout 3, .beginTx 3, .userBlock 3, .commitTx 3],
      e.connId = 3) ∧
    (∃ s', (some (3, 15) : Option (Nat × Nat)) = some (3, s')) :=
  transaction_async_single_connection (.ok (3, 0)) txAllOk
    (fun d => d + 100) (fun ce => ce * 3)
    (fun s => .value (.ok 42, s + 4)) 3 0 (.ok 42) (some (3, 15))
    [.checkout 3, .beginTx 3, .userBlock 3, .commitTx 3] rfl rfl

/-- Witness for C4 at concrete inputs: a panicking closure makes
`run_with_connection`, `run_with_shared_connection` and `run` all terminate
abnormally rather than resolve to any value. -/
theorem blocking_panic_propagates_witness :
    run_with_connection 0 (fun _ : Nat => (ClosureOutcome.panic : ClosureOutcome Nat)) = .panicked ∧
    run_with_shared_connection 0 (fun _ : Nat => (ClosureOutcome.panic : ClosureOutcome Nat)) = .panicked ∧
    (∀ a : Nat, run_with_connection 0 (fun _ : Nat => (ClosureOutcome.panic : ClosureOutcome Nat)) ≠ .done a) ∧
    (run (.ok 1) (fun ce : Nat => ce * 3)
      (fun _ : Nat => (ClosureOutcome.panic : ClosureOutcome (Except Nat Nat × Nat)))).1 = .panicked ∧
    (∀ v : Except Nat Nat × Option Nat,
      (run (.ok 1) (fun ce : Nat => ce * 3)
        (fun _ : Nat => (ClosureOutcome.panic : ClosureOutcome (Except Nat Nat × Nat)))).1 ≠ .done v) :=
  blocking_panic_propagates 0 1
    (fun _ : Nat => (ClosureOutcome.panic : ClosureOutcome Nat))
    (.ok 1) (fun ce : Nat => ce * 3)
    (fun _ : Nat => (ClosureOutcome.panic : ClosureOutcome (Except Nat Nat × Nat)))
    rfl rfl rfl

/-- Witness for C7 at concrete inputs: `transaction` submits exactly one
blocking relay and returns the wrapped transaction helper's result on the
checked-out state 10. -/
theorem transaction_delegates_to_diesel_witness :
    transaction (.ok 10) (fun ce : Nat => ce * 3)
        (fun g s => g (s + 1))
        (fun s => ((.ok (s * 2) : Except Nat Nat), s + 5)) =
      (.done (.ok 22, some 16), [.spawned]) :=
  transaction_delegates_to_diesel (.ok 10) (fun ce : Nat => ce * 3)
    (fun g s => g (s + 1))
    (fun s => ((.ok (s * 2) : Except Nat Nat), s + 5)) 10 rfl

/-- Witness for C9 at concrete inputs: a checkout failing with error 4
makes `run` return the converted error 12 with an empty trace, whatever the
closure. -/
theorem run_checkout_failure_witness :
    run (.error 4) (fun ce : Nat => ce * 3)
        (fun s : Nat => .value ((.ok 1 : Except Nat Nat), s)) =
      (.done (.error 12, none), []) :=
  run_checkout_failure (.error 4) (fun ce : Nat => ce * 3) 4 rfl
    (fun s : Nat => .value ((.ok 1 : Except Nat Nat), s))

/-- Witness for C3 at concrete inputs: each of the six asynchronous query
operations on state 10 completes with exactly the outcome of its
synchronous counterpart, errors converted by the direct conversion into
`E`. -/
theorem async_query_ops_refine_sync_witness :
    execute_async (.ok 10) (fun ce : Nat => ce * 3) (fun d : Nat => d * 7)
        (fun s => (.ok 7, s + 1)) =
      (.done ((syncOutcomeSpec (fun d : Nat => d * 7)
          (fun s : Nat => ((.ok 7 : Except Nat Nat), s + 1)) 10).1,
        some (syncOutcomeSpec (fun d : Nat => d * 7)
          (fun s : Nat => ((.ok 7 : Except Nat Nat), s + 1)) 10).2),
        [.spawned]) ∧
    load_async (.ok 10) (fun ce : Nat => ce * 3) (fun d : Nat => d * 7)
        (fun s => (.ok [s], s + 2)) =
      (.done ((syncOutcomeSpec (fun d : Nat => d * 7)
          (fun s : Nat => ((.ok [s] : Except Nat (List Nat)), s + 2)) 10).1,
        some (syncOutcomeSpec (fun d : Nat => d * 7)
          (fun s : Nat => ((.ok [s] : Except Nat (List Nat)), s + 2)) 10).2),
        [.spawned]) ∧
    get_result_async (.ok 10) (fun ce : Nat => ce * 3) (fun d : Nat => d * 7)
        (fun s => (.error 5, s + 3)) =
      (.done ((syncOutcomeSpec (fun d : Nat => d * 7)
          (fun s : Nat => ((.error 5 : Except Nat Nat), s + 3)) 10).1,
        some (syncOutcomeSpec (fun d : Nat => d * 7)
          (fun s : Nat => ((.error 5 : Except Nat Nat), s + 3)) 10).2),
        [.spawned]) ∧
    get_results_async (.ok 10) (fun ce : Nat => ce * 3) (fun d : Nat => d * 7)
        (fun s => (.ok [1, 2], s)) =
      (.done ((syncOutcomeSpec (fun d : Nat => d * 7)
          (fun s : Nat => ((.ok [1, 2] : Except Nat (List Nat)), s)) 10).1,
        some (syncOutcomeSpec (fun d : Nat => d * 7)
          (fun s : Nat => ((.ok [1, 2] : Except Nat (List Nat)), s)) 10).2),
        [.spawned]) ∧
    first_async (.ok 10) (fun ce : Nat => ce * 3) (fun d : Nat => d * 7)
        (fun s => (.ok 9, s)) =
      (.done ((syncOutcomeSpec (fun d : Nat => d * 7)
          (fun s : Nat => ((.ok 9 : Except Nat Nat), s)) 10).1,
        some (syncOutcomeSpec (fun d : Nat => d * 7)
          (fun s : Nat => ((.ok 9 : Except Nat Nat), s)) 10).2),
        [.spawned]) ∧
    save_changes_async (.ok 10) (fun ce : Nat => ce * 3) (fun d : Nat => d * 7)
        (fun s => (.ok 11, s)) =
      (.done ((syncOutcomeSpec (fun d : Nat => d * 7)
          (fun s : Nat => ((.ok 11 : Except Nat Nat), s)) 10).1,
        some (syncOutcomeSpec (fun d : Nat => d * 7)
          (fun s : Nat => ((.ok 11 : Except Nat Nat), s)) 10).2),
        [.spawned]) :=
  async_query_ops_refine_sync (.ok 10) (fun ce : Nat => ce * 3)
    (fun d : Nat => d * 7)
    (fun s => (.ok 7, s + 1)) (fun s => (.ok [s], s + 2))
    (fun s => (.error 5, s + 3)) (fun s => (.ok [1, 2], s))
    (fun s => (.ok 9, s)) (fun s => (.ok 11, s)) 10 rfl

end AsyncBb8Diesel
